import Mathlib

/-!
Verification of the overseer package's configuration / bootstrap layer
(`overseer.go`): the `Config` data model, `validate`, `sanityCheck`,
`SanityCheck`, `runErr`, `RunErr`, `Run` and `Restart`, shallowly embedded
in Lean.  The master/slave runtimes and the platform files are not part of
the visible source; where a claim depends on them they are modelled from
the specification and marked as such in their doc comments.
-/

namespace Overseer

/-- Durations are `time.Duration`: a signed count of nanoseconds. -/
abbrev Duration := Int

/-- `time.Second` in nanoseconds. -/
def second : Duration := 1000000000

/-- Modelled from the spec: `os.Signal` values.  The platform build files
(not in the visible source) define `SIGUSR2`; signals are abstract tokens
here. -/
inductive Signal where
  | usr1 : Signal
  | usr2 : Signal
  | term : Signal
  | other : Nat → Signal
deriving DecidableEq, Repr

/-- Modelled from the spec: the user-defined "soft restart" signal used as
the default `RestartSignal` (defined in a platform file outside the
visible source). -/
def SIGUSR2 : Signal := Signal.usr2

/-- Modelled from the spec: the `State` handed to the user program — an
instance identifier and the set of live listeners (listeners are abstract
descriptor numbers here). -/
structure StateM where
  id : String
  listeners : List Nat
deriving DecidableEq, Repr

/-- Modelled from the spec: the disabled state the program is run against
when supervision is unavailable — no listeners, identifier "disabled". -/
def DisabledState : StateM := { id := "disabled", listeners := [] }

/-- `Config` from `overseer.go`.  Function-valued fields (`Program`,
`PreUpgrade`) and the `Fetcher` interface are represented by optional
opaque identifiers: only their nil-ness is inspected by the embedded
code. -/
structure Config where
  Required : Bool := false
  Program : Option Nat := none
  Address : String := ""
  Addresses : List String := []
  RestartSignal : Option Signal := none
  TerminateTimeout : Duration := 0
  MinFetchInterval : Duration := 0
  PreUpgrade : Option Nat := none
  Debug : Bool := false
  NoWarn : Bool := false
  NoRestart : Bool := false
  NoRestartAfterFetch : Bool := false
  Fetcher : Option Nat := none
deriving DecidableEq, Repr

/-- Lines 71–79 of `validate` in `overseer.go`: three independent `if`
statements, each defaulting one unset policy field.  Each condition reads
only the field it defaults, so the three sequential assignments equal one
simultaneous record update. -/
def applyDefaults (c : Config) : Config :=
  { c with
    RestartSignal := if c.RestartSignal = none then some SIGUSR2 else c.RestartSignal
    TerminateTimeout := if c.TerminateTimeout ≤ 0 then 30 * second else c.TerminateTimeout
    MinFetchInterval := if c.MinFetchInterval ≤ 0 then 1 * second else c.MinFetchInterval }

/-- `validate` from `overseer.go`.  The Go function mutates `*Config` in
place; here the (possibly updated) config is returned on success.  On
every error path the Go code returns before any field assignment, so the
caller's pointee is unchanged there. -/
def validate (c : Config) : Except String Config :=
  if c.Program = none then
    Except.error "overseer.Config.Program required"
  else if c.Address ≠ "" then
    if c.Addresses.length > 0 then
      Except.error "overseer.Config.Address and Addresses cant both be set"
    else
      Except.ok (applyDefaults { c with Addresses := [c.Address] })
  else if c.Addresses.length > 0 then
    Except.ok (applyDefaults { c with Address := c.Addresses.headD "" })
  else
    Except.ok (applyDefaults c)

/-- The process environment variables read by the bootstrap code.  Go's
`os.Getenv` returns `""` for an unset variable, so an empty string models
"absent". -/
structure Env where
  binCheck : String := ""
  binCheckLegacy : String := ""
  isSlave : String := ""
deriving DecidableEq, Repr

/-- `sanityCheck` from `overseer.go`: returns whether a check was
performed, paired with what was written to standard output. -/
def sanityCheck (e : Env) : Bool × String :=
  if e.binCheck ≠ "" then (true, e.binCheck)
  else if e.binCheckLegacy ≠ "" then (true, e.binCheckLegacy)
  else (false, "")

/-- `SanityCheck` from `overseer.go`: the first component records whether
`os.Exit(0)` was reached, the second what was printed. -/
def SanityCheck (e : Env) : Bool × String :=
  match sanityCheck e with
  | (true, out) => (true, out)
  | (false, out) => (false, out)

/-- The two process roles `runErr` can construct. -/
inductive Role where
  | master : Role
  | slave : Role
deriving DecidableEq, Repr

/-- Observable outcome of `runErr`: the returned error (if any), the
bytes written to standard output, the role that was constructed and run
together with the config it was constructed with, and the final value of
the `*Config` pointee (`runErr` mutates it through `validate`). -/
structure RunErrOut where
  result : Option String
  stdout : String
  role : Option (Role × Config)
  finalC : Config
deriving Repr

/-- `runErr` from `overseer.go`.  `supported` and `goos` stand for the
platform constants `supported` and `runtime.GOOS` defined in build files
outside the visible source; `roleRes` is an uninterpreted oracle for the
result of `currentProcess.run()` (the master/slave implementations are
outside the visible source). -/
def runErr (supported : Bool) (goos : String)
    (roleRes : Role → Config → Option String) (e : Env) (c : Config) :
    RunErrOut :=
  if !supported then
    { result := some ("os (" ++ goos ++ ") not supported"), stdout := ""
      role := none, finalC := c }
  else
    match validate c with
    | Except.error er => { result := some er, stdout := "", role := none, finalC := c }
    | Except.ok c =>
      match sanityCheck e with
      | (true, out) => { result := none, stdout := out, role := none, finalC := c }
      | (false, _) =>
        let r := if e.isSlave = "1" then Role.slave else Role.master
        { result := roleRes r c, stdout := "", role := some (r, c), finalC := c }

/-- `RunErr` from `overseer.go`: the caller's `Config` is passed by value,
so only the returned error is observable; the callee's copy is
discarded. -/
def RunErr (supported : Bool) (goos : String)
    (roleRes : Role → Config → Option String) (e : Env) (c : Config) :
    Option String :=
  (runErr supported goos roleRes e c).result

/-- Observable outcome of `Run`: whether `log.Fatalf` terminated the
process (with its message), whether a warning was logged (with its
message), the sequence of `State` values `Program` was invoked with,
whether calling a nil `Program` panicked, whether `os.Exit(0)` was
reached, and standard output. -/
structure RunOut where
  fatal : Option String
  warned : Option String
  programCalls : List StateM
  panicked : Bool
  exitedZero : Bool
  stdout : String
deriving Repr

/-- `Run` from `overseer.go`.  After `runErr(&c)` returns, the Go code
reads `c.Required`, `c.Debug`, `c.NoWarn` and calls `c.Program` on the
(possibly mutated) local copy, which the embedding reads from `finalC`.
Calling a nil `Program` in Go panics, recorded in `panicked`. -/
def Run (supported : Bool) (goos : String)
    (roleRes : Role → Config → Option String) (e : Env) (c : Config) :
    RunOut :=
  let o := runErr supported goos roleRes e c
  match o.result with
  | some err =>
    if o.finalC.Required then
      { fatal := some ("[overseer] " ++ err), warned := none, programCalls := []
        panicked := false, exitedZero := false, stdout := o.stdout }
    else
      let w := if o.finalC.Debug || !o.finalC.NoWarn then
          some ("[overseer] disabled. run failed: " ++ err) else none
      match o.finalC.Program with
      | none =>
        { fatal := none, warned := w, programCalls := []
          panicked := true, exitedZero := false, stdout := o.stdout }
      | some _ =>
        { fatal := none, warned := w, programCalls := [DisabledState]
          panicked := false, exitedZero := false, stdout := o.stdout }
  | none =>
    { fatal := none, warned := none, programCalls := []
      panicked := false, exitedZero := true, stdout := o.stdout }

/-- A handle standing for the `currentProcess` master/slave object;
`restartsTriggered` counts `triggerRestart()` calls (the implementations
are outside the visible source, so only the call count is modelled). -/
structure ProcHandle where
  restartsTriggered : Nat
deriving DecidableEq, Repr

/-- Modelled from the spec: `triggerRestart()` on the current process
requests a graceful restart; here it is recorded as a count. -/
def triggerRestartH (p : ProcHandle) : ProcHandle :=
  { p with restartsTriggered := p.restartsTriggered + 1 }

/-- `Restart` from `overseer.go`, acting on the package-level
`currentProcess` (here passed explicitly; `none` models the nil interface
before any role has been resolved). -/
def Restart (cp : Option ProcHandle) : Option ProcHandle :=
  match cp with
  | none => cp
  | some p => some (triggerRestartH p)

/-- Modelled from the spec: the master's binary identity — the generation
counter and the content of the trusted running executable (contents are
abstract identifiers).  The master code holding it is outside the visible
source. -/
structure BinIdentity where
  binId : Nat
  trustedContent : Nat
deriving DecidableEq, Repr

/-- Modelled from the spec: the observable behaviour of one staged
candidate binary during validation — the pre-upgrade hook's result, and
the outcome of running the candidate with the sanity token set (its
standard output, whether it hit the bounded timeout, and its exit
code). -/
structure CandidateRun where
  content : Nat
  preUpgradeErr : Option String
  sanityStdout : String
  sanityTimedOut : Bool
  sanityExitCode : Nat
deriving DecidableEq, Repr

/-- Modelled from the spec (§4.2, candidate validation pipeline; the
master's implementation is outside the visible source): a non-nil
pre-upgrade hook error aborts the upgrade; a sanity-check failure (wrong
output, timeout, non-zero exit) aborts identically; only when both pass is
the candidate renamed over the running binary and the generation
incremented. -/
def upgradeCandidate (token : String) (cand : CandidateRun)
    (s : BinIdentity) : BinIdentity :=
  if cand.preUpgradeErr ≠ none then s
  else if cand.sanityTimedOut ∨ cand.sanityStdout ≠ token ∨ cand.sanityExitCode ≠ 0 then s
  else { binId := s.binId + 1, trustedContent := cand.content }

/-! Memory-explicit model of the same code, used to express Go's by-value
call and slice-aliasing semantics: a `Config` value copied at a call
boundary shares the backing array of its `Addresses` slice with the
caller.  The heap is the list of allocated string arrays; a slice is a
reference into it (`none` is the nil slice). -/

namespace Mem

/-- The heap of allocated string arrays backing `[]string` slices. -/
abbrev Heap := List (List String)

/-- A `[]string` value: nil, or a reference to a heap array. -/
abbrev Slice := Option Nat

/-- The strings a slice denotes under a heap. -/
def sliceVals (h : Heap) (s : Slice) : List String :=
  match s with
  | none => []
  | some i => h.getD i []

/-- `Config` with its `Addresses` slice kept as a heap reference; the
other fields are as in `Overseer.Config`. -/
structure ConfigM where
  Required : Bool := false
  Program : Option Nat := none
  Address : String := ""
  Addresses : Slice := none
  RestartSignal : Option Signal := none
  TerminateTimeout : Duration := 0
  MinFetchInterval : Duration := 0
  Debug : Bool := false
  NoWarn : Bool := false
deriving DecidableEq, Repr

/-- Lines 71–79 of `validate` over the memory-explicit model: defaulting
touches only scalar fields of the copy, never the heap. -/
def applyDefaultsM (c : ConfigM) : ConfigM :=
  { c with
    RestartSignal := if c.RestartSignal = none then some SIGUSR2 else c.RestartSignal
    TerminateTimeout := if c.TerminateTimeout ≤ 0 then 30 * second else c.TerminateTimeout
    MinFetchInterval := if c.MinFetchInterval ≤ 0 then 1 * second else c.MinFetchInterval }

/-- `validate` from `overseer.go` over the memory-explicit model.  The
assignment `c.Addresses = []string{c.Address}` allocates a fresh array and
rebinds the copy's slice header; no element of any existing array is ever
written. -/
def validate (c : ConfigM) (h : Heap) : Except String (ConfigM × Heap) :=
  if c.Program = none then
    Except.error "overseer.Config.Program required"
  else if c.Address ≠ "" then
    if (sliceVals h c.Addresses).length > 0 then
      Except.error "overseer.Config.Address and Addresses cant both be set"
    else
      Except.ok (applyDefaultsM { c with Addresses := some h.length }, h ++ [[c.Address]])
  else if (sliceVals h c.Addresses).length > 0 then
    Except.ok (applyDefaultsM { c with Address := (sliceVals h c.Addresses).headD "" }, h)
  else
    Except.ok (applyDefaultsM c, h)

/-- `runErr` from `overseer.go` over the memory-explicit model.  The
master/slave `run()` implementations are outside the visible source;
modelled from the spec, `Config` is read-only after validation ("Config is
constructed once, validated once, then read-only") and the role result is
the uninterpreted `roleRes`, so the heap is left untouched by the role. -/
def runErr (supported : Bool) (goos : String)
    (roleRes : Role → ConfigM → Option String) (e : Env) (c : ConfigM)
    (h : Heap) : Option String × Heap :=
  if !supported then (some ("os (" ++ goos ++ ") not supported"), h)
  else
    match validate c h with
    | Except.error er => (some er, h)
    | Except.ok (c, h) =>
      match sanityCheck e with
      | (true, _) => (none, h)
      | (false, _) =>
        let r := if e.isSlave = "1" then Role.slave else Role.master
        (roleRes r c, h)

/-- `RunErr` from `overseer.go` over the memory-explicit model: the
caller's `Config` record is copied at the call boundary (Go pass-by-value)
and the copy — which shares the caller's `Addresses` backing array — is
what `runErr` mutates, so the caller observes only the returned error and
any heap effects. -/
def RunErr (supported : Bool) (goos : String)
    (roleRes : Role → ConfigM → Option String) (e : Env) (c : ConfigM)
    (h : Heap) : Option String × Heap :=
  runErr supported goos roleRes e c h

/-- `Run` from `overseer.go` over the memory-explicit model: like
`RunErr`, the caller's record is copied, so the caller's view afterwards
is its own record read against the resulting heap (the extra work `Run`
does on the error path — reading flags off the copy and invoking
`Program` — reads memory but writes none of it). -/
def Run (supported : Bool) (goos : String)
    (roleRes : Role → ConfigM → Option String) (e : Env) (c : ConfigM)
    (h : Heap) : Option String × Heap :=
  RunErr supported goos roleRes e c h

end Mem

/-! Theorems. -/

/-- Every successful `validate` produces `applyDefaults` of a config that
agrees with the input on all fields other than `Address`/`Addresses`. -/
theorem validate_ok_shape (c c' : Config) (hok : validate c = Except.ok c') :
    ∃ cm : Config, c' = applyDefaults cm ∧
      cm.RestartSignal = c.RestartSignal ∧
      cm.TerminateTimeout = c.TerminateTimeout ∧
      cm.MinFetchInterval = c.MinFetchInterval ∧
      cm.Required = c.Required ∧ cm.Program = c.Program ∧
      cm.Debug = c.Debug ∧ cm.NoWarn = c.NoWarn := by
  unfold validate at hok
  split_ifs at hok <;> simp only [Except.ok.injEq] at hok
  · exact ⟨_, hok.symm, rfl, rfl, rfl, rfl, rfl, rfl, rfl⟩
  · exact ⟨_, hok.symm, rfl, rfl, rfl, rfl, rfl, rfl, rfl⟩
  · exact ⟨_, hok.symm, rfl, rfl, rfl, rfl, rfl, rfl, rfl⟩

/-- Claim C6: a `Config` with both `Address` and `Addresses` set fails
validation, with the dedicated error message whenever the earlier
`Program` check passes; and a `Config` with a nil `Program` always fails
validation with the `Program required` error. -/
theorem validate_rejects_invalid (c : Config) :
    (c.Program = none → validate c = Except.error "overseer.Config.Program required") ∧
    (c.Program ≠ none → c.Address ≠ "" → c.Addresses.length > 0 →
      validate c = Except.error "overseer.Config.Address and Addresses cant both be set") ∧
    (c.Address ≠ "" → c.Addresses.length > 0 → (validate c).isOk = false) := by
  refine ⟨fun hP => by simp [validate, hP], fun hP hA hL => by simp [validate, hP, hA, hL], ?_⟩
  intro hA hL
  by_cases hP : c.Program = none
  · simp [validate, hP, Except.isOk, Except.toBool]
  · simp [validate, hP, hA, hL, Except.isOk, Except.toBool]

/-- Witness for C6 at concrete configs. -/
theorem validate_rejects_invalid_witness :
    validate { Program := none } = Except.error "overseer.Config.Program required" ∧
    validate { Program := some 1, Address := ":5001", Addresses := [":6001"] } =
      Except.error "overseer.Config.Address and Addresses cant both be set" :=
  ⟨(validate_rejects_invalid _).1 rfl,
   (validate_rejects_invalid _).2.1 (by simp) (by simp) (by simp)⟩

/-- Counterexample for C5: a `Config` with `Program` set and neither
`Address` nor `Addresses` set validates successfully, yet its `Addresses`
list is empty afterwards — refuting "Addresses is non-empty after every
successful validation". -/
theorem validate_no_addresses_succeeds_empty :
    (validate { Program := some 1 }).isOk = true ∧
    (validate { Program := some 1 }).toOption.map Config.Addresses = some [] :=
  ⟨rfl, rfl⟩

/-- Claim C5 (amended): whenever validation succeeds on a `Config` with at
least one of `Address`/`Addresses` set, the resulting `Addresses` list is
non-empty, the single `Address` equals its head, and the form that was set
is the one that populates the list. -/
theorem validate_normalizes_addresses (c c' : Config)
    (hset : c.Address ≠ "" ∨ c.Addresses ≠ [])
    (hok : validate c = Except.ok c') :
    c'.Addresses ≠ [] ∧ c'.Address = c'.Addresses.headD "" ∧
    (c.Address ≠ "" → c'.Addresses = [c.Address]) ∧
    (c.Address = "" → c'.Addresses = c.Addresses) := by
  unfold validate at hok
  by_cases hP : c.Program = none
  · simp [hP] at hok
  · by_cases hA : c.Address = ""
    · have hL : c.Addresses.length > 0 := by
        rcases hset with h | h
        · exact absurd hA h
        · exact List.length_pos.mpr h
      simp [hP, hA, hL] at hok
      subst hok
      refine ⟨?_, ?_, fun h => absurd hA h, fun _ => rfl⟩
      · simpa [applyDefaults] using List.length_pos.mp hL
      · simp [applyDefaults, hA]
    · by_cases hL : c.Addresses.length > 0
      · simp [hP, hA, hL] at hok
      · simp [hP, hA, hL] at hok
        subst hok
        exact ⟨by simp [applyDefaults], by simp [applyDefaults], fun _ => by simp [applyDefaults],
          fun h => absurd h hA⟩

/-- Witness for C5 (amended) at a concrete config. -/
theorem validate_normalizes_addresses_witness :
    (applyDefaults { Program := some 1, Address := ":5001", Addresses := [":5001"] }).Addresses ≠ [] :=
  (validate_normalizes_addresses { Program := some 1, Address := ":5001" } _
    (Or.inl (by simp)) rfl).1

/-- Counterexample for C7: `TerminateTimeout = -1` is a set (non-zero)
field, yet validation replaces it with the 30-second default — refuting
"fields that were already set are left unchanged". -/
theorem validate_overwrites_negative_timeout :
    (({ Program := some 1, Address := ":5001", TerminateTimeout := -1 } : Config)).TerminateTimeout = -1 ∧
    (validate { Program := some 1, Address := ":5001", TerminateTimeout := -1 }).toOption.map
      Config.TerminateTimeout = some (30 * second) ∧
    (30 * second : Duration) ≠ -1 :=
  ⟨rfl, rfl, by decide⟩

/-- Claim C7 (amended): validation defaults a nil `RestartSignal` to
`SIGUSR2`, a non-positive `TerminateTimeout` to 30 s and a non-positive
`MinFetchInterval` to 1 s, and leaves a non-nil signal and positive
durations unchanged. -/
theorem validate_applies_defaults (c c' : Config) (hok : validate c = Except.ok c') :
    (c.RestartSignal = none → c'.RestartSignal = some SIGUSR2) ∧
    (c.RestartSignal ≠ none → c'.RestartSignal = c.RestartSignal) ∧
    (c.TerminateTimeout ≤ 0 → c'.TerminateTimeout = 30 * second) ∧
    (0 < c.TerminateTimeout → c'.TerminateTimeout = c.TerminateTimeout) ∧
    (c.MinFetchInterval ≤ 0 → c'.MinFetchInterval = 1 * second) ∧
    (0 < c.MinFetchInterval → c'.MinFetchInterval = c.MinFetchInterval) := by
  obtain ⟨cm, rfl, hRS, hTT, hMF, -, -, -, -⟩ := validate_ok_shape c c' hok
  refine ⟨fun h => ?_, fun h => ?_, fun h => ?_, fun h => ?_, fun h => ?_, fun h => ?_⟩
  · simp [applyDefaults, hRS, h]
  · simp [applyDefaults, hRS, h]
  · simp [applyDefaults, hTT, h]
  · simp [applyDefaults, hTT, not_le.mpr h]
  · simp [applyDefaults, hMF, h]
  · simp [applyDefaults, hMF, not_le.mpr h]

/-- Witness for C7 (amended) at a concrete config. -/
theorem validate_applies_defaults_witness :
    (applyDefaults
      { Program := some 1, Addresses := [":5001"], Address := ":5001", TerminateTimeout := 7 }).RestartSignal = some SIGUSR2 ∧
    (applyDefaults
      { Program := some 1, Addresses := [":5001"], Address := ":5001", TerminateTimeout := 7 }).TerminateTimeout = 7 :=
  ⟨(validate_applies_defaults { Program := some 1, Address := ":5001", TerminateTimeout := 7 } _
      rfl).1 rfl,
   (validate_applies_defaults { Program := some 1, Address := ":5001", TerminateTimeout := 7 } _
      rfl).2.2.2.1 (by decide)⟩

/-- `runErr` leaves the flag and callback fields of the pointee it mutates
unchanged: `validate` only touches the address fields and the three
defaulted policy fields. -/
theorem runErr_finalC_flags (sup : Bool) (goos : String)
    (rr : Role → Config → Option String) (e : Env) (c : Config) :
    (runErr sup goos rr e c).finalC.Required = c.Required ∧
    (runErr sup goos rr e c).finalC.Program = c.Program ∧
    (runErr sup goos rr e c).finalC.Debug = c.Debug ∧
    (runErr sup goos rr e c).finalC.NoWarn = c.NoWarn := by
  unfold runErr
  split
  · exact ⟨rfl, rfl, rfl, rfl⟩
  · cases hv : validate c with
    | error er => simp [hv]
    | ok c1 =>
      obtain ⟨cm, rfl, -, -, -, hReq, hProg, hDbg, hNW⟩ := validate_ok_shape c c1 hv
      rcases hsc : sanityCheck e with ⟨b, out⟩
      cases b <;> simp [hv, hsc, applyDefaults, hReq, hProg, hDbg, hNW]

/-- Counterexample for C2: with the sanity token set but an invalid
`Config` (nil `Program`), `runErr` returns the validation error and prints
nothing — the sanity check does not pre-empt `Config` validation. -/
theorem sanity_check_not_preempting_validation :
    (({ binCheck := "tok" } : Env)).binCheck ≠ "" ∧
    (runErr true "linux" (fun _ _ => none) { binCheck := "tok" } { Program := none }).result =
      some "overseer.Config.Program required" ∧
    (runErr true "linux" (fun _ _ => none) { binCheck := "tok" } { Program := none }).stdout = "" ∧
    (Run true "linux" (fun _ _ => none) { binCheck := "tok" } { Program := none }).exitedZero = false :=
  ⟨by simp, rfl, rfl, rfl⟩

/-- Claim C2 (amended): on a supported platform, for every `Config` that
passes validation, a present sanity token makes `runErr` print the token
verbatim and return nil before any role is constructed, and `Run` then
exits with success. -/
theorem sanity_token_preempts_role_logic (sup : Bool) (goos : String)
    (rr : Role → Config → Option String) (e : Env) (c c' : Config)
    (hsup : sup = true) (hok : validate c = Except.ok c') (ht : e.binCheck ≠ "") :
    runErr sup goos rr e c =
      { result := none, stdout := e.binCheck, role := none, finalC := c' } ∧
    (Run sup goos rr e c).exitedZero = true ∧
    (Run sup goos rr e c).stdout = e.binCheck ∧
    (Run sup goos rr e c).programCalls = [] := by
  subst hsup
  have h1 : runErr true goos rr e c =
      { result := none, stdout := e.binCheck, role := none, finalC := c' } := by
    unfold runErr
    simp [hok, sanityCheck, ht]
  exact ⟨h1, by simp [Run, h1], by simp [Run, h1], by simp [Run, h1]⟩

/-- Witness for C2 (amended) at a concrete environment and config. -/
theorem sanity_token_preempts_role_logic_witness :
    (Run true "linux" (fun _ _ => none) { binCheck := "tok" } { Program := some 1 }).exitedZero = true ∧
    (Run true "linux" (fun _ _ => none) { binCheck := "tok" } { Program := some 1 }).stdout = "tok" :=
  ⟨(sanity_token_preempts_role_logic true "linux" (fun _ _ => none) { binCheck := "tok" }
      { Program := some 1 } _ rfl rfl (by simp)).2.1,
   (sanity_token_preempts_role_logic true "linux" (fun _ _ => none) { binCheck := "tok" }
      { Program := some 1 } _ rfl rfl (by simp)).2.2.1⟩

/-- Counterexample for C4: the slave-marker variable set to `"true"` is
present (non-empty), yet `runErr` constructs and runs the master — the
role test is equality with `"1"`, not presence. -/
theorem slave_marker_present_runs_master :
    (({ isSlave := "true" } : Env)).isSlave ≠ "" ∧
    ((runErr true "linux" (fun _ _ => none) { isSlave := "true" }
        { Program := some 1, Address := ":5001" }).role).map Prod.fst = some Role.master :=
  ⟨by simp, rfl⟩

/-- Claim C4 (amended): on a supported platform, for a `Config` passing
validation with no sanity token set, the role is resolved from the
slave-marker variable's value: equal to `"1"` runs the Slave runtime, any
other value (including absence) runs the Master controller, in both cases
on the validated config. -/
theorem role_resolved_from_slave_marker (sup : Bool) (goos : String)
    (rr : Role → Config → Option String) (e : Env) (c c' : Config)
    (hsup : sup = true) (hok : validate c = Except.ok c')
    (h1 : e.binCheck = "") (h2 : e.binCheckLegacy = "") :
    (e.isSlave = "1" →
      (runErr sup goos rr e c).role = some (Role.slave, c') ∧
      (runErr sup goos rr e c).result = rr Role.slave c') ∧
    (e.isSlave ≠ "1" →
      (runErr sup goos rr e c).role = some (Role.master, c') ∧
      (runErr sup goos rr e c).result = rr Role.master c') := by
  subst hsup
  constructor <;> intro hs <;> constructor <;>
    · unfold runErr
      simp [hok, sanityCheck, h1, h2, hs]

/-- Witness for C4 (amended) at concrete environments. -/
theorem role_resolved_from_slave_marker_witness :
    (runErr true "linux" (fun _ _ => none) { isSlave := "1" }
      { Program := some 1, Address := ":5001" }).role =
      some (Role.slave, applyDefaults { Program := some 1, Address := ":5001", Addresses := [":5001"] }) :=
  ((role_resolved_from_slave_marker true "linux" (fun _ _ => none) { isSlave := "1" }
      { Program := some 1, Address := ":5001" } _ rfl rfl rfl rfl).1 rfl).1

/-- Claim C8: when the primary sanity-token variable is absent but the
legacy-named alias is present, the check behaves identically: the legacy
token is printed exactly to standard output and `SanityCheck` reaches
`os.Exit(0)`. -/
theorem sanity_check_legacy_alias (e : Env)
    (h1 : e.binCheck = "") (h2 : e.binCheckLegacy ≠ "") :
    sanityCheck e = (true, e.binCheckLegacy) ∧
    SanityCheck e = (true, e.binCheckLegacy) := by
  have hs : sanityCheck e = (true, e.binCheckLegacy) := by
    simp [sanityCheck, h1, h2]
  exact ⟨hs, by simp [SanityCheck, hs]⟩

/-- Witness for C8 at a concrete environment. -/
theorem sanity_check_legacy_alias_witness :
    SanityCheck { binCheckLegacy := "legacy-tok" } = (true, "legacy-tok") :=
  (sanity_check_legacy_alias { binCheckLegacy := "legacy-tok" } rfl (by simp)).2

/-- Claim C9: calling `Restart` while `currentProcess` is still nil (no
role resolved yet) is a safe no-op: it triggers nothing and leaves the
handle state unchanged. -/
theorem restart_before_run_is_noop : Restart none = none := rfl

/-- Counterexample for C3: for the `Config` with a nil `Program` and
`Required` unset, startup returns an error and `Run` then calls the nil
`Program`, which panics — the process does exit as a result of the error
and `Program` is not invoked. -/
theorem run_error_nil_program_panics :
    ((runErr true "linux" (fun _ _ => none) {} { Program := none, Required := false }).result).isSome = true ∧
    (Run true "linux" (fun _ _ => none) {} { Program := none, Required := false }).panicked = true ∧
    (Run true "linux" (fun _ _ => none) {} { Program := none, Required := false }).programCalls = [] ∧
    (Run true "linux" (fun _ _ => none) {} { Program := none, Required := false }).fatal = none :=
  ⟨rfl, rfl, rfl, rfl⟩

/-- Claim C3 (amended): for every `Config` with a non-nil `Program`, if
`runErr` returns an error then: with `Required` set, `Run` terminates
fatally with that error; with `Required` unset, `Run` does not exit,
invokes `Program` exactly once with the disabled state, and logs a warning
exactly when `Debug` is set or `NoWarn` is unset. -/
theorem run_error_fallback (sup : Bool) (goos : String)
    (rr : Role → Config → Option String) (e : Env) (c : Config) (err : String)
    (hp : c.Program ≠ none)
    (herr : (runErr sup goos rr e c).result = some err) :
    (c.Required = true →
      (Run sup goos rr e c).fatal = some ("[overseer] " ++ err) ∧
      (Run sup goos rr e c).programCalls = [] ∧
      (Run sup goos rr e c).exitedZero = false) ∧
    (c.Required = false →
      (Run sup goos rr e c).fatal = none ∧
      (Run sup goos rr e c).programCalls = [DisabledState] ∧
      (Run sup goos rr e c).panicked = false ∧
      (Run sup goos rr e c).exitedZero = false ∧
      ((Run sup goos rr e c).warned =
          some ("[overseer] disabled. run failed: " ++ err) ↔
        (c.Debug = true ∨ c.NoWarn = false))) := by
  obtain ⟨hReq, hProg, hDbg, hNW⟩ := runErr_finalC_flags sup goos rr e c
  obtain ⟨p, hp'⟩ := Option.ne_none_iff_exists'.mp (hProg.trans_ne hp)
  constructor <;> intro hR
  · rw [hR] at hReq
    simp [Run, herr, hReq]
  · rw [hR] at hReq
    refine ⟨by simp [Run, herr, hReq, hp'], by simp [Run, herr, hReq, hp'],
      by simp [Run, herr, hReq, hp'], by simp [Run, herr, hReq, hp'], ?_⟩
    simp [Run, herr, hReq, hp']
    cases hd : (runErr sup goos rr e c).finalC.Debug <;>
      cases hw : (runErr sup goos rr e c).finalC.NoWarn <;>
      simp_all

/-- Witness for C3 (amended): on an unsupported platform with `Required`
unset, `Run` falls back to invoking `Program` once with the disabled
state. -/
theorem run_error_fallback_witness :
    (Run false "linux" (fun _ _ => none) {} { Program := some 1, Required := false }).programCalls =
      [DisabledState] ∧
    (Run false "linux" (fun _ _ => none) {} { Program := some 1, Required := false }).exitedZero = false :=
  ⟨((run_error_fallback false "linux" (fun _ _ => none) {} { Program := some 1, Required := false }
      "os (linux) not supported" (by simp) rfl).2 rfl).2.1,
   ((run_error_fallback false "linux" (fun _ _ => none) {} { Program := some 1, Required := false }
      "os (linux) not supported" (by simp) rfl).2 rfl).2.2.2.1⟩

/-- Claim C1: a candidate whose pre-upgrade hook errors, or whose
sanity-check run times out, prints the wrong output, or exits non-zero,
never changes the trusted binary identity and never advances the
generation; a candidate passing both checks is swapped in and the
generation advances by one. -/
theorem upgrade_candidate_gating (token : String) (cand : CandidateRun) (s : BinIdentity) :
    (cand.preUpgradeErr ≠ none → upgradeCandidate token cand s = s) ∧
    (cand.sanityTimedOut = true ∨ cand.sanityStdout ≠ token ∨ cand.sanityExitCode ≠ 0 →
      upgradeCandidate token cand s = s) ∧
    (cand.preUpgradeErr = none → cand.sanityTimedOut = false → cand.sanityStdout = token →
      cand.sanityExitCode = 0 →
      upgradeCandidate token cand s = { binId := s.binId + 1, trustedContent := cand.content }) := by
  unfold upgradeCandidate
  refine ⟨fun h => by simp [h], fun h => ?_, fun h1 h2 h3 h4 => by simp [h1, h2, h3, h4]⟩
  by_cases hpre : cand.preUpgradeErr ≠ none
  · simp [hpre]
  · have hsan : (cand.sanityTimedOut = true ∨ cand.sanityStdout ≠ token ∨
        cand.sanityExitCode ≠ 0) := h
    simp only [hpre, if_false, ite_not]
    rcases hsan with h1 | h1 | h1 <;> simp [h1]

/-- Witness for C1 at concrete candidates: a hook rejection leaves the
identity untouched; a fully passing candidate advances the generation and
installs the new content. -/
theorem upgrade_candidate_gating_witness :
    upgradeCandidate "t0" ⟨7, some "rejected", "t0", false, 0⟩ ⟨3, 5⟩ = ⟨3, 5⟩ ∧
    upgradeCandidate "t0" ⟨7, none, "bad", false, 0⟩ ⟨3, 5⟩ = ⟨3, 5⟩ ∧
    upgradeCandidate "t0" ⟨7, none, "t0", false, 0⟩ ⟨3, 5⟩ = ⟨4, 7⟩ :=
  ⟨(upgrade_candidate_gating "t0" ⟨7, some "rejected", "t0", false, 0⟩ ⟨3, 5⟩).1 (by simp),
   (upgrade_candidate_gating "t0" ⟨7, none, "bad", false, 0⟩ ⟨3, 5⟩).2.1 (Or.inr (Or.inl (by simp))),
   (upgrade_candidate_gating "t0" ⟨7, none, "t0", false, 0⟩ ⟨3, 5⟩).2.2 rfl rfl rfl rfl⟩

/-- The heap after memory-explicit `validate` is the input heap, possibly
extended by one freshly allocated array; pre-existing arrays are never
written. -/
theorem validateM_heap_extends (c : Mem.ConfigM) (h : Mem.Heap) (c' : Mem.ConfigM)
    (h' : Mem.Heap) (hok : Mem.validate c h = Except.ok (c', h')) :
    h' = h ∨ h' = h ++ [[c.Address]] := by
  unfold Mem.validate at hok
  split_ifs at hok <;> simp only [Except.ok.injEq, Prod.mk.injEq] at hok
  · exact Or.inr hok.2.symm
  · exact Or.inl hok.2.symm
  · exact Or.inl hok.2.symm

/-- The heap after memory-explicit `runErr` is the input heap, possibly
extended by one freshly allocated array. -/
theorem runErrM_heap_extends (sup : Bool) (goos : String)
    (rr : Role → Mem.ConfigM → Option String) (e : Env) (c : Mem.ConfigM) (h : Mem.Heap) :
    (Mem.runErr sup goos rr e c h).2 = h ∨
    (Mem.runErr sup goos rr e c h).2 = h ++ [[c.Address]] := by
  unfold Mem.runErr
  split
  · exact Or.inl rfl
  · cases hv : Mem.validate c h with
    | error er => simp [hv]
    | ok p =>
      have := validateM_heap_extends c h p.1 p.2 (by simpa using hv)
      rcases hsc : sanityCheck e with ⟨b, out⟩
      cases b <;> simpa [hv, hsc] using this

/-- Claim C10: `RunErr` and `Run` never mutate the caller's `Config`: the
caller's record is copied at the call boundary, every array that existed
before the call holds the same strings afterwards, and in particular the
caller's `Addresses` slice reads the same values before and after. -/
theorem run_never_mutates_caller (sup : Bool) (goos : String)
    (rr : Role → Mem.ConfigM → Option String) (e : Env) (c : Mem.ConfigM) (h : Mem.Heap)
    (hwf : ∀ i, c.Addresses = some i → i < h.length) :
    (∀ i, i < h.length → ((Mem.RunErr sup goos rr e c h).2).getD i [] = h.getD i []) ∧
    Mem.sliceVals (Mem.RunErr sup goos rr e c h).2 c.Addresses = Mem.sliceVals h c.Addresses ∧
    (Mem.Run sup goos rr e c h).2 = (Mem.RunErr sup goos rr e c h).2 := by
  have hext := runErrM_heap_extends sup goos rr e c h
  have hpre : ∀ i, i < h.length → ((Mem.RunErr sup goos rr e c h).2).getD i [] = h.getD i [] := by
    intro i hi
    rcases hext with hcase | hcase <;> rw [Mem.RunErr, hcase]
    exact List.getD_append _ _ _ _ hi
  refine ⟨hpre, ?_, rfl⟩
  cases ha : c.Addresses with
  | none => simp [Mem.sliceVals]
  | some i => exact hpre i (hwf i ha)

/-- Witness for C10 at a concrete caller state: one array on the heap,
referenced by the caller's `Addresses`; its contents read the same after
`RunErr`. -/
theorem run_never_mutates_caller_witness :
    Mem.sliceVals
        (Mem.RunErr true "linux" (fun _ _ => none) {} { Program := some 1, Addresses := some 0 }
          [[":9090"]]).2 (some 0) =
      Mem.sliceVals [[":9090"]] (some 0) :=
  (run_never_mutates_caller true "linux" (fun _ _ => none) {}
    { Program := some 1, Addresses := some 0 } [[":9090"]]
    (fun i hi => by simp_all)).2.1

end Overseer
